import Mathlib

/-!
Shallow embedding of the lmsilo-core client libraries (shared-ui) for
verification of the reconciliation / connection / request-executor claims.

Each definition is translated from the TypeScript source:
- `UseApi` embeds `src/shared-ui/src/hooks/useApi.ts` (handleResponse,
  fetchData, post, put, del, reset).
- `UseWebSocket` embeds the `useWebSocket` hook (second section of
  `src/shared-ui/src/hooks/useTheme.ts`, lines 74-200) as an explicit
  state machine driven by caller/environment events.
- `JobListMod` embeds the `JobList` component's `fetchJobs` poll handler
  (`src/unnamed/part_001`, lines 41-57) acting on its component state.
- `JobQueueMod` embeds `getStatusConfig` (`components/JobQueue.tsx`,
  lines 188-226) and `StatusBadgeMod` embeds the `statusConfig` lookup of
  `components/StatusBadge.tsx` (lines 9-25).

JavaScript promises/async are embedded by passing the settled outcome of
the awaited network operation as an explicit argument; a thrown-and-caught
JS value is an explicit `Except`/sum; React `useState` state is an explicit
record threaded through the functions.
-/

/-- Minimal JSON value type standing for what `JSON.parse` / `response.json()`
produce. -/
inductive Json where
  | null
  | bool (b : Bool)
  | num (n : Int)
  | str (s : String)
  | arr (xs : List Json)
  | obj (fields : List (String × Json))

/-- Field lookup on a JSON object; `none` on non-objects or missing keys. -/
def Json.getField : Json → String → Option Json
  | .obj fields, k => fields.lookup k
  | _, _ => none

/-- Build the error-envelope object shape `{error, code, message}` used by the
fallback branches of `useApi.ts`. -/
def mkApiError (err code message : String) : Json :=
  .obj [("error", .str err), ("code", .str code), ("message", .str message)]

/-- Proposition that the decimal rendering of `n` occurs inside `msg`
(formalises "the message carries the numeric HTTP status code"). -/
def mentionsNum (msg : String) (n : Nat) : Prop :=
  (toString n).data <:+: msg.data

instance (msg : String) (n : Nat) : Decidable (mentionsNum msg n) :=
  List.decidableInfix _ _

namespace UseApi

/-- Settled shape of one `fetch` response as far as `useApi.ts` inspects it:
`ok`/`status` from the Response object, whether the `content-type` header
includes `application/json`, and the result of `response.json()` (`none` when
the body fails to parse, i.e. the json() promise rejects). -/
structure Response where
  ok : Bool
  status : Nat
  contentTypeJson : Bool
  jsonBody : Option Json

/-- Outcome of awaiting `fetch(...)`: the network layer failed (fetch threw),
or a response arrived. -/
inductive FetchOutcome where
  | networkFailure
  | response (r : Response)

/-- A JS value caught by the `catch (err)` blocks of `useApi.ts`: a thrown
ApiError-shaped body, the TypeError of a failed fetch, or the SyntaxError of
an unparseable success body. -/
inductive Thrown where
  | apiError (e : Json)
  | networkTypeError
  | parseSyntaxError

/-- React state of the `useApi` hook: `data`, `error`, `loading`. -/
structure ApiState where
  data : Option Json
  error : Option Thrown
  loading : Bool

/-- Model of `handleResponse` (useApi.ts lines 41-56). On `!response.ok` it
throws the parsed error body, or the `{unknown_error, ERR_UNKNOWN,
"HTTP <status>"}` fallback when the body does not parse. On success it
returns the parsed body when the content type is JSON (throwing the parse
error when that body is unparseable) and `null` otherwise. -/
def handleResponse (r : Response) : Except Thrown (Option Json) :=
  if r.ok = false then
    .error (.apiError (r.jsonBody.getD
      (mkApiError "unknown_error" "ERR_UNKNOWN" ("HTTP " ++ toString r.status))))
  else if r.contentTypeJson then
    match r.jsonBody with
    | some j => .ok (some j)
    | none => .error .parseSyntaxError
  else
    .ok none

/-- Model of `fetchData` (useApi.ts lines 58-84): set loading, clear error,
await the fetch, run `handleResponse`; a caught throw is stored in `error`
and `null` is returned; `finally` clears loading. -/
def fetchData (outcome : FetchOutcome) (st : ApiState) : Option Json × ApiState :=
  let st1 : ApiState := { st with loading := true, error := none }
  match outcome with
  | .networkFailure =>
      (none, { st1 with error := some .networkTypeError, loading := false })
  | .response r =>
      match handleResponse r with
      | .ok result => (result, { st1 with data := result, loading := false })
      | .error t => (none, { st1 with error := some t, loading := false })

/-- Model of `post` (useApi.ts lines 86-92): delegates to `fetchData`; the
method/headers/body only shape the request, not the response handling. -/
def post (_body : Json) (outcome : FetchOutcome) (st : ApiState) :
    Option Json × ApiState :=
  fetchData outcome st

/-- Model of `put` (useApi.ts lines 94-100): delegates to `fetchData`. -/
def put (_body : Json) (outcome : FetchOutcome) (st : ApiState) :
    Option Json × ApiState :=
  fetchData outcome st

/-- Model of `del` (useApi.ts lines 102-128): its own inline error handling
with the fixed `{delete_failed, ERR_DELETE, "Delete failed"}` fallback;
returns `true` on any ok response and `false` on any failure. -/
def del (outcome : FetchOutcome) (st : ApiState) : Bool × ApiState :=
  let st1 : ApiState := { st with loading := true, error := none }
  match outcome with
  | .networkFailure =>
      (false, { st1 with error := some .networkTypeError, loading := false })
  | .response r =>
      if r.ok then
        (true, { st1 with loading := false })
      else
        (false, { st1 with
          error := some (.apiError (r.jsonBody.getD
            (mkApiError "delete_failed" "ERR_DELETE" "Delete failed"))),
          loading := false })

/-- Model of `reset` (useApi.ts lines 130-134). -/
def reset (_st : ApiState) : ApiState :=
  { data := none, error := none, loading := false }

end UseApi

namespace UseWebSocket

/-- Connection status values of the hook (useTheme.ts line 123). -/
inductive WsStatus where
  | connecting
  | connected
  | disconnected
  | error
deriving DecidableEq

/-- WebSocket readyState values. The hook only ever compares against OPEN. -/
inductive ReadyState where
  | connectingRS
  | openRS
  | closingRS
  | closedRS
deriving DecidableEq

/-- A WebSocket object as far as the hook observes it: its readyState and a
serial number (the order in which `new WebSocket(url)` was evaluated),
letting distinct socket objects be told apart. -/
structure Socket where
  readyState : ReadyState
  serial : Nat
deriving DecidableEq

/-- A message as held in the hook's `message` state: the parsed JSON value or,
for an unparseable frame, the raw text forwarded as-is. -/
inductive WsMsg where
  | jsonMsg (j : Json)
  | raw (s : String)

/-- Hook options (useTheme.ts lines 116-120). The url and the interval length
do not affect the state transitions and are omitted; timer expiry is an
explicit event. -/
structure WsConfig where
  reconnect : Bool
  maxReconnectAttempts : Nat

/-- State of the hook: `message`/`status` React state, `wsRef`,
`reconnectAttemptsRef`, whether a reconnect timeout is pending, and an
instrumentation counter of how many `new WebSocket(url)` evaluations have
happened. -/
structure WSState where
  message : Option WsMsg
  status : WsStatus
  ws : Option Socket
  attempts : Nat
  timerArmed : Bool
  socketsCreated : Nat

/-- Initial hook state (useTheme.ts lines 122-127). -/
def WSState.init : WSState :=
  { message := none, status := .disconnected, ws := none, attempts := 0,
    timerArmed := false, socketsCreated := 0 }

/-- Caller/environment events driving the hook. `connectCall`,
`disconnectCall` and `sendCall` are caller actions; `openEvt`, `messageEvt`,
`errorEvt` and `closeEvt` are socket events dispatched to the attached
handlers; `timerFire` is the expiry of the armed reconnect timeout. -/
inductive WSEvent where
  | connectCall
  | openEvt
  | messageEvt (rawText : String)
  | errorEvt
  | closeEvt
  | timerFire
  | disconnectCall
  | sendCall

/-- Body of `connect` past the early-return guard (useTheme.ts lines 134-138):
set status to connecting and install a fresh socket in the ref. In the model
`new WebSocket(url)` does not throw (the catch on line 171 fires only for
malformed urls). -/
def connectProceed (s : WSState) : WSState :=
  { s with status := .connecting,
           ws := some ⟨.connectingRS, s.socketsCreated⟩,
           socketsCreated := s.socketsCreated + 1 }

/-- Model of `connect` (useTheme.ts lines 129-174): early return only when the
current socket's readyState is OPEN. -/
def connectStep (s : WSState) : WSState :=
  match s.ws with
  | some sock => if sock.readyState = .openRS then s else connectProceed s
  | none => connectProceed s

/-- One transition of the hook, dispatching an event to the corresponding
handler body. `parse` stands for `JSON.parse` (`none` models a throw). -/
def step (cfg : WsConfig) (parse : String → Option Json) (s : WSState) :
    WSEvent → WSState
  | .connectCall => connectStep s
  | .openEvt =>
      { s with status := .connected, attempts := 0 }
  | .messageEvt rawText =>
      { s with message := some (match parse rawText with
          | some j => .jsonMsg j
          | none => .raw rawText) }
  | .errorEvt =>
      { s with status := .error }
  | .closeEvt =>
      let s1 := { s with status := .disconnected, ws := none }
      if cfg.reconnect = true ∧ s.attempts < cfg.maxReconnectAttempts then
        { s1 with attempts := s.attempts + 1, timerArmed := true }
      else s1
  | .timerFire =>
      if s.timerArmed then connectStep { s with timerArmed := false } else s
  | .disconnectCall =>
      { s with timerArmed := false, ws := none, status := .disconnected }
  | .sendCall => s

/-- Run the hook from its initial state over a sequence of events. -/
def run (cfg : WsConfig) (parse : String → Option Json)
    (evts : List WSEvent) : WSState :=
  evts.foldl (step cfg parse) WSState.init

end UseWebSocket

namespace JobListMod

/-- Job record (shared-ui types.ts), restricted to the fields the claims and
the `JobList` component read. -/
structure Job where
  id : String
  status : String
  progress : Option Nat
  filename : Option String
  created_at : String
  error : Option String
deriving DecidableEq

/-- Job with only id and status set, for concrete scenarios. -/
def mkJob (id status : String) : Job :=
  { id := id, status := status, progress := none, filename := none,
    created_at := "", error := none }

/-- React state of the `JobList` component (part_001 lines 36-38). -/
structure JobListState where
  jobs : List Job
  loading : Bool
  error : Option String
deriving DecidableEq

/-- Parsed body of one poll response: the paginated object form (of which
`fetchJobs` reads only `items` — `data.items || data`, and a JS array is
truthy even when empty) or the bare-array form. -/
inductive JobsPayload where
  | paged (items : List Job)
  | bare (jobs : List Job)

/-- The list `data.items || data` evaluates to (part_001 line 49). -/
def jobsOf : JobsPayload → List Job
  | .paged items => items
  | .bare jobs => jobs

/-- Settled outcome of one poll round trip: a caught failure (network error,
non-ok response, or body parse error — all land in the same catch) with the
message stored, or a successfully parsed payload. -/
inductive FetchResult where
  | failure (msg : String)
  | success (payload : JobsPayload)

/-- Model of `fetchJobs` (part_001 lines 41-57): on success the jobs state is
replaced by the payload's list and the error cleared; on any caught failure
the error message is stored and jobs are left as they were; `finally` clears
loading. -/
def fetchJobs (st : JobListState) (res : FetchResult) : JobListState :=
  match res with
  | .failure msg => { st with error := some msg, loading := false }
  | .success p => { jobs := jobsOf p, error := none, loading := false }

/-- Status stored for a job id, `none` when no record with that id exists. -/
def findStatus (st : JobListState) (id : String) : Option String :=
  (st.jobs.find? (fun j => j.id == id)).map Job.status

end JobListMod

/-- Per-character lowercase map standing for JS `String.prototype.toLowerCase`
(ASCII range, which covers every status string the components match on). -/
def toLowerCase (s : String) : String :=
  ⟨s.data.map Char.toLower⟩

namespace JobQueueMod

/-- Result record of `getStatusConfig` (JobQueue.tsx): the icon name and the
CSS class strings of the chosen branch. -/
structure StatusConfig where
  icon : String
  bgColor : String
  iconColor : String
  pillClass : String
  barColor : String
deriving DecidableEq

/-- Branch returned for completed/done/success (JobQueue.tsx lines 190-198). -/
def completedConfig : StatusConfig :=
  { icon := "CheckCircle2",
    bgColor := "bg-olive-100 dark:bg-olive-900/30",
    iconColor := "text-olive-600 dark:text-olive-400",
    pillClass := "bg-olive-100 dark:bg-olive-900/30 text-olive-700 dark:text-olive-300",
    barColor := "bg-olive-500" }

/-- Branch returned for failed/error (JobQueue.tsx lines 199-207). -/
def failedConfig : StatusConfig :=
  { icon := "XCircle",
    bgColor := "bg-red-100 dark:bg-red-900/30",
    iconColor := "text-red-600 dark:text-red-400",
    pillClass := "bg-red-100 dark:bg-red-900/30 text-red-700 dark:text-red-300",
    barColor := "bg-red-500" }

/-- Branch returned for the in-progress synonyms (JobQueue.tsx lines 208-216). -/
def processingConfig : StatusConfig :=
  { icon := "Loader2",
    bgColor := "bg-olive-100 dark:bg-olive-900/30",
    iconColor := "text-olive-600 dark:text-olive-400 animate-spin",
    pillClass := "bg-olive-100 dark:bg-olive-900/30 text-olive-700 dark:text-olive-300",
    barColor := "bg-olive-500" }

/-- Default / queued branch (JobQueue.tsx lines 218-225). -/
def defaultConfig : StatusConfig :=
  { icon := "Clock",
    bgColor := "bg-cream-200 dark:bg-dark-50",
    iconColor := "text-surface-500",
    pillClass := "bg-cream-200 dark:bg-dark-50 text-surface-600 dark:text-surface-400",
    barColor := "bg-surface-300 dark:bg-surface-700" }

/-- Synonyms mapped to the completed branch. -/
def completedList : List String := ["completed", "done", "success"]

/-- Synonyms mapped to the failed branch. -/
def failedList : List String := ["failed", "error"]

/-- Synonyms mapped to the processing branch. -/
def processingList : List String :=
  ["processing", "extracting", "transcribing", "detecting", "translating", "diarizing"]

/-- Branch dispatch of `getStatusConfig` on the already-lowercased string
(JobQueue.tsx lines 190-225). -/
def statusConfigCore (s : String) : StatusConfig :=
  if completedList.contains s then completedConfig
  else if failedList.contains s then failedConfig
  else if processingList.contains s then processingConfig
  else defaultConfig

/-- Model of `getStatusConfig` (JobQueue.tsx lines 188-226): lowercase the
input, then dispatch. -/
def getStatusConfig (status : String) : StatusConfig :=
  statusConfigCore (toLowerCase status)

end JobQueueMod

namespace StatusBadgeMod

/-- One entry of the `statusConfig` record in StatusBadge.tsx. -/
structure BadgeConfig where
  bg : String
  text : String
  label : String
deriving DecidableEq

/-- The `statusConfig` lookup table (StatusBadge.tsx lines 9-18), keyed by the
raw status string with no case folding. -/
def statusConfigTable : List (String × BadgeConfig) :=
  [("pending", { bg := "#fef3c7", text := "#92400e", label := "Pending" }),
   ("queued", { bg := "#e0e7ff", text := "#3730a3", label := "Queued" }),
   ("processing", { bg := "#dbeafe", text := "#1e40af", label := "Processing" }),
   ("completed", { bg := "#dcfce7", text := "#166534", label := "Completed" }),
   ("failed", { bg := "#fee2e2", text := "#dc2626", label := "Failed" }),
   ("cancelled", { bg := "#f3f4f6", text := "#6b7280", label := "Cancelled" }),
   ("success", { bg := "#dcfce7", text := "#166534", label := "Success" }),
   ("error", { bg := "#fee2e2", text := "#dc2626", label := "Error" })]

/-- Model of the config selection in `StatusBadge` (StatusBadge.tsx line 24):
`statusConfig[status] || fallback`, the fallback labelling the badge with the
raw status text. -/
def statusBadgeConfig (status : String) : BadgeConfig :=
  match statusConfigTable.lookup status with
  | some c => c
  | none => { bg := "#f3f4f6", text := "#6b7280", label := status }

end StatusBadgeMod

namespace UseWebSocket

/-- Neither branch of `connect` changes the attempt counter. -/
theorem attempts_connectStep (s : WSState) :
    (connectStep s).attempts = s.attempts := by
  unfold connectStep connectProceed
  cases s.ws with
  | none => rfl
  | some sock =>
      by_cases h : sock.readyState = .openRS <;> simp [h]

/-- A single transition keeps the attempt counter within the configured
maximum. -/
theorem attempts_step_le (cfg : WsConfig) (parse : String → Option Json)
    (s : WSState) (e : WSEvent)
    (h : s.attempts ≤ cfg.maxReconnectAttempts) :
    (step cfg parse s e).attempts ≤ cfg.maxReconnectAttempts := by
  cases e with
  | connectCall =>
      show (connectStep s).attempts ≤ _
      rw [attempts_connectStep]; exact h
  | openEvt => exact Nat.zero_le _
  | messageEvt rawText => exact h
  | errorEvt => exact h
  | closeEvt =>
      show (if cfg.reconnect = true ∧ s.attempts < cfg.maxReconnectAttempts
            then _ else _ : WSState).attempts ≤ _
      split
      · next hc => exact hc.2
      · exact h
  | timerFire =>
      show (if s.timerArmed then _ else _ : WSState).attempts ≤ _
      split
      · rw [attempts_connectStep]; exact h
      · exact h
  | disconnectCall => exact h
  | sendCall => exact h

/-- Running any event sequence from a state within the bound stays within the
bound. -/
theorem attempts_foldl_le (cfg : WsConfig) (parse : String → Option Json)
    (evts : List WSEvent) (s : WSState)
    (h : s.attempts ≤ cfg.maxReconnectAttempts) :
    (evts.foldl (step cfg parse) s).attempts ≤ cfg.maxReconnectAttempts := by
  induction evts generalizing s with
  | nil => exact h
  | cons e rest ih => exact ih _ (attempts_step_le cfg parse s e h)

end UseWebSocket

/-- C1 counterexample: the store holds J1 with the terminal status
"completed"; a subsequently applied poll snapshot reporting J1 as
"processing" changes J1's canonical status back to "processing", so a
terminal status is not absorbing under `fetchJobs`. -/
theorem fetchJobs_terminal_overwritten :
    JobListMod.findStatus
      ⟨[JobListMod.mkJob "J1" "completed"], false, none⟩ "J1"
      = some "completed" ∧
    JobListMod.findStatus
      (JobListMod.fetchJobs ⟨[JobListMod.mkJob "J1" "completed"], false, none⟩
        (.success (.bare [JobListMod.mkJob "J1" "processing"])))
      "J1" = some "processing" := by
  exact ⟨by decide, by decide⟩

/-- C1 amended: a successful poll snapshot replaces the stored list outright,
so after it is applied a job's canonical status is exactly the status the
snapshot reports for that id (or absent) — independent of the previously
stored status, terminal or not. -/
theorem fetchJobs_snapshot_determines_status
    (st : JobListMod.JobListState) (p : JobListMod.JobsPayload) (id : String) :
    JobListMod.findStatus (JobListMod.fetchJobs st (.success p)) id =
      ((JobListMod.jobsOf p).find? (fun j => j.id == id)).map
        JobListMod.Job.status := by
  rfl

/-- C2 counterexample: the same two-element set of updates for J1, applied in
the two possible arrival orders, yields two different final merged records
("completed" in one order, "processing" in the other), so the merge policy is
not commutative with respect to arrival order. -/
theorem fetchJobs_order_dependent :
    JobListMod.findStatus
      ([JobListMod.FetchResult.success (.bare [JobListMod.mkJob "J1" "processing"]),
        JobListMod.FetchResult.success (.bare [JobListMod.mkJob "J1" "completed"])].foldl
        JobListMod.fetchJobs ⟨[], false, none⟩) "J1" = some "completed" ∧
    JobListMod.findStatus
      ([JobListMod.FetchResult.success (.bare [JobListMod.mkJob "J1" "completed"]),
        JobListMod.FetchResult.success (.bare [JobListMod.mkJob "J1" "processing"])].foldl
        JobListMod.fetchJobs ⟨[], false, none⟩) "J1" = some "processing" := by
  exact ⟨by decide, by decide⟩

/-- C2 amended: the merge policy is last-write-wins, not commutative: after
any sequence of updates ending in a successful snapshot, the whole store
state equals that final snapshot's list (with error cleared and loading
false), so the final record depends on which update arrives last. -/
theorem fetchJobs_last_snapshot_wins
    (st : JobListMod.JobListState) (l : List JobListMod.FetchResult)
    (p : JobListMod.JobsPayload) :
    (l ++ [JobListMod.FetchResult.success p]).foldl JobListMod.fetchJobs st =
      { jobs := JobListMod.jobsOf p, loading := false, error := none } := by
  rw [List.foldl_append]
  rfl

/-- C3 counterexample: the store holds J2 and no deletion event exists in the
model at all; processing a successful poll snapshot that omits J2 removes J2
from the store. -/
theorem fetchJobs_omitted_job_removed :
    JobListMod.findStatus
      ⟨[JobListMod.mkJob "J1" "processing", JobListMod.mkJob "J2" "processing"],
        false, none⟩ "J2" = some "processing" ∧
    JobListMod.findStatus
      (JobListMod.fetchJobs
        ⟨[JobListMod.mkJob "J1" "processing", JobListMod.mkJob "J2" "processing"],
          false, none⟩
        (.success (.paged [JobListMod.mkJob "J1" "completed"])))
      "J2" = none := by
  exact ⟨by decide, by decide⟩

/-- C3 amended: presence in the store is decided by the latest successful
snapshot alone — a job whose id does not occur in that snapshot is absent
afterwards; the store's job list is preserved only when the poll round trip
fails (network/HTTP/parse error). -/
theorem fetchJobs_removal_semantics
    (st : JobListMod.JobListState) (p : JobListMod.JobsPayload)
    (id msg : String)
    (h : ∀ j ∈ JobListMod.jobsOf p, j.id ≠ id) :
    JobListMod.findStatus (JobListMod.fetchJobs st (.success p)) id = none ∧
    (JobListMod.fetchJobs st (.failure msg)).jobs = st.jobs := by
  refine ⟨?_, rfl⟩
  show ((JobListMod.jobsOf p).find? (fun j => j.id == id)).map
    JobListMod.Job.status = none
  rw [List.find?_eq_none.mpr]
  · rfl
  · intro j hj
    simpa using h j hj

/-- C3 amended witness at a concrete store, snapshot and id. -/
theorem fetchJobs_removal_semantics_witness :
    (∀ j ∈ JobListMod.jobsOf (.paged [JobListMod.mkJob "J1" "completed"]),
      j.id ≠ "J2") ∧
    (JobListMod.findStatus
      (JobListMod.fetchJobs ⟨[JobListMod.mkJob "J2" "processing"], false, none⟩
        (.success (.paged [JobListMod.mkJob "J1" "completed"]))) "J2" = none ∧
    (JobListMod.fetchJobs ⟨[JobListMod.mkJob "J2" "processing"], false, none⟩
      (.failure "Failed to fetch jobs")).jobs
      = [JobListMod.mkJob "J2" "processing"]) :=
  ⟨by decide,
   fetchJobs_removal_semantics
     ⟨[JobListMod.mkJob "J2" "processing"], false, none⟩
     (.paged [JobListMod.mkJob "J1" "completed"]) "J2" "Failed to fetch jobs"
     (by decide)⟩

/-- C4 evaluation at the failing input (reconnect enabled, max 5 attempts;
events: connect(), socket open, disconnect(), delivery of the closed socket's
close event, expiry of the armed timer): `disconnect()` itself does cancel
the timer, drop the socket and set `disconnected` — but the close event of
the socket it just closed re-enters the auto-reconnect branch (attempts
0 < 5), arms a fresh reconnect timer, and its expiry invokes `connect()`
again, creating a second socket with no caller action after `disconnect()`. -/
theorem disconnect_then_reconnect_fires :
    (UseWebSocket.run ⟨true, 5⟩ (fun _ => none)
      [.connectCall, .openEvt, .disconnectCall]).status = .disconnected ∧
    (UseWebSocket.run ⟨true, 5⟩ (fun _ => none)
      [.connectCall, .openEvt, .disconnectCall]).timerArmed = false ∧
    (UseWebSocket.run ⟨true, 5⟩ (fun _ => none)
      [.connectCall, .openEvt, .disconnectCall]).ws = none ∧
    (UseWebSocket.run ⟨true, 5⟩ (fun _ => none)
      [.connectCall, .openEvt, .disconnectCall]).socketsCreated = 1 ∧
    (UseWebSocket.run ⟨true, 5⟩ (fun _ => none)
      [.connectCall, .openEvt, .disconnectCall, .closeEvt]).timerArmed = true ∧
    (UseWebSocket.run ⟨true, 5⟩ (fun _ => none)
      [.connectCall, .openEvt, .disconnectCall, .closeEvt, .timerFire]).status
      = .connecting ∧
    (UseWebSocket.run ⟨true, 5⟩ (fun _ => none)
      [.connectCall, .openEvt, .disconnectCall, .closeEvt, .timerFire]).socketsCreated
      = 2 := by
  exact ⟨rfl, rfl, rfl, rfl, rfl, rfl, rfl⟩

/-- C5 counterexample: `connect()` issued while the previous `connect()` is
still in the connecting phase (readyState CONNECTING, not OPEN) passes the
early-return guard and evaluates `new WebSocket(url)` a second time,
replacing the ref with a different socket object — two sockets created, the
first live connection object not left in place. -/
theorem connect_while_connecting_opens_second_socket :
    (UseWebSocket.run ⟨true, 5⟩ (fun _ => none) [.connectCall]).status
      = .connecting ∧
    (UseWebSocket.run ⟨true, 5⟩ (fun _ => none) [.connectCall]).ws
      = some ⟨.connectingRS, 0⟩ ∧
    (UseWebSocket.run ⟨true, 5⟩ (fun _ => none) [.connectCall, .connectCall]).ws
      = some ⟨.connectingRS, 1⟩ ∧
    (UseWebSocket.run ⟨true, 5⟩ (fun _ => none)
      [.connectCall, .connectCall]).socketsCreated = 2 := by
  exact ⟨rfl, rfl, rfl, rfl⟩

/-- C5 amended: `connect()` is a no-op exactly in the connected case — when
the current socket's readyState is OPEN the call returns at the guard and the
whole hook state (socket object included) is unchanged; the connecting case
is not covered by the guard. -/
theorem connect_noop_when_open (cfg : UseWebSocket.WsConfig)
    (parse : String → Option Json) (s : UseWebSocket.WSState)
    (sock : UseWebSocket.Socket)
    (hws : s.ws = some sock) (hopen : sock.readyState = .openRS) :
    UseWebSocket.step cfg parse s .connectCall = s := by
  show UseWebSocket.connectStep s = s
  unfold UseWebSocket.connectStep
  rw [hws]
  simp [hopen]

/-- C5 amended witness on a concrete connected state. -/
theorem connect_noop_when_open_witness :
    ({ UseWebSocket.WSState.init with
        ws := some ⟨.openRS, 0⟩, status := .connected } :
      UseWebSocket.WSState).ws = some ⟨.openRS, 0⟩ ∧
    (⟨.openRS, 0⟩ : UseWebSocket.Socket).readyState = .openRS ∧
    UseWebSocket.step ⟨true, 5⟩ (fun _ => none)
      { UseWebSocket.WSState.init with
          ws := some ⟨.openRS, 0⟩, status := .connected } .connectCall
      = { UseWebSocket.WSState.init with
          ws := some ⟨.openRS, 0⟩, status := .connected } :=
  ⟨rfl, rfl,
   connect_noop_when_open ⟨true, 5⟩ (fun _ => none)
     { UseWebSocket.WSState.init with
         ws := some ⟨.openRS, 0⟩, status := .connected }
     ⟨.openRS, 0⟩ rfl rfl⟩

/-- C6: over every event sequence from the initial state the reconnect
attempt counter stays at or below the configured maximum; a close event in
the retry branch (reconnect enabled, counter below the maximum) increments
the counter by exactly one and arms the retry timer; the open handler (the
successful transition into connected) resets it to zero; and every other
transition — connect call, message, error, disconnect, timer expiry, send —
leaves the counter unchanged, so the reset happens exactly on the connected
transition. -/
theorem reconnect_attempts_bounded_and_transitions
    (cfg : UseWebSocket.WsConfig) (parse : String → Option Json)
    (evts : List UseWebSocket.WSEvent) (s : UseWebSocket.WSState)
    (rawText : String)
    (hrc : cfg.reconnect = true)
    (hlt : s.attempts < cfg.maxReconnectAttempts) :
    (UseWebSocket.run cfg parse evts).attempts ≤ cfg.maxReconnectAttempts ∧
    (UseWebSocket.step cfg parse s .openEvt).attempts = 0 ∧
    (UseWebSocket.step cfg parse s .closeEvt).attempts = s.attempts + 1 ∧
    (UseWebSocket.step cfg parse s .closeEvt).timerArmed = true ∧
    (UseWebSocket.step cfg parse s .connectCall).attempts = s.attempts ∧
    (UseWebSocket.step cfg parse s (.messageEvt rawText)).attempts
      = s.attempts ∧
    (UseWebSocket.step cfg parse s .errorEvt).attempts = s.attempts ∧
    (UseWebSocket.step cfg parse s .disconnectCall).attempts = s.attempts ∧
    (UseWebSocket.step cfg parse s .timerFire).attempts = s.attempts ∧
    (UseWebSocket.step cfg parse s .sendCall).attempts = s.attempts := by
  refine ⟨UseWebSocket.attempts_foldl_le cfg parse evts _ (Nat.zero_le _),
    rfl, ?_, ?_, UseWebSocket.attempts_connectStep s, rfl, rfl, rfl, ?_, rfl⟩
  · show (if cfg.reconnect = true ∧ s.attempts < cfg.maxReconnectAttempts
        then _ else _ : UseWebSocket.WSState).attempts = _
    rw [if_pos ⟨hrc, hlt⟩]
  · show (if cfg.reconnect = true ∧ s.attempts < cfg.maxReconnectAttempts
        then _ else _ : UseWebSocket.WSState).timerArmed = _
    rw [if_pos ⟨hrc, hlt⟩]
  · show (if (UseWebSocket.WSState.timerArmed s) = true
        then _ else _ : UseWebSocket.WSState).attempts = _
    split
    · exact UseWebSocket.attempts_connectStep _
    · rfl

/-- C6 witness at a concrete configuration and state. -/
theorem reconnect_attempts_bounded_and_transitions_witness :
    ((⟨true, 5⟩ : UseWebSocket.WsConfig).reconnect = true ∧
      UseWebSocket.WSState.init.attempts
        < (⟨true, 5⟩ : UseWebSocket.WsConfig).maxReconnectAttempts) ∧
    ((UseWebSocket.run ⟨true, 5⟩ (fun _ => none) []).attempts ≤ 5 ∧
    (UseWebSocket.step ⟨true, 5⟩ (fun _ => none)
      UseWebSocket.WSState.init .openEvt).attempts = 0 ∧
    (UseWebSocket.step ⟨true, 5⟩ (fun _ => none)
      UseWebSocket.WSState.init .closeEvt).attempts
      = UseWebSocket.WSState.init.attempts + 1 ∧
    (UseWebSocket.step ⟨true, 5⟩ (fun _ => none)
      UseWebSocket.WSState.init .closeEvt).timerArmed = true ∧
    (UseWebSocket.step ⟨true, 5⟩ (fun _ => none)
      UseWebSocket.WSState.init .connectCall).attempts
      = UseWebSocket.WSState.init.attempts ∧
    (UseWebSocket.step ⟨true, 5⟩ (fun _ => none)
      UseWebSocket.WSState.init (.messageEvt "x")).attempts
      = UseWebSocket.WSState.init.attempts ∧
    (UseWebSocket.step ⟨true, 5⟩ (fun _ => none)
      UseWebSocket.WSState.init .errorEvt).attempts
      = UseWebSocket.WSState.init.attempts ∧
    (UseWebSocket.step ⟨true, 5⟩ (fun _ => none)
      UseWebSocket.WSState.init .disconnectCall).attempts
      = UseWebSocket.WSState.init.attempts ∧
    (UseWebSocket.step ⟨true, 5⟩ (fun _ => none)
      UseWebSocket.WSState.init .timerFire).attempts
      = UseWebSocket.WSState.init.attempts ∧
    (UseWebSocket.step ⟨true, 5⟩ (fun _ => none)
      UseWebSocket.WSState.init .sendCall).attempts
      = UseWebSocket.WSState.init.attempts) :=
  ⟨⟨rfl, by decide⟩,
   reconnect_attempts_bounded_and_transitions ⟨true, 5⟩ (fun _ => none) []
     UseWebSocket.WSState.init "x" rfl (by decide)⟩

/-- C7 counterexample: "COMPLETED" is a case variant of the known status
"completed", yet the StatusBadge config lookup is keyed on the raw string —
the variant falls through to the default config (grey badge labelled with the
raw text) while the lowercase spelling gets the Completed config, so the two
do not yield the same canonical kind. -/
theorem statusBadge_case_sensitive :
    toLowerCase "COMPLETED" = "completed" ∧
    StatusBadgeMod.statusBadgeConfig "completed"
      = { bg := "#dcfce7", text := "#166534", label := "Completed" } ∧
    StatusBadgeMod.statusBadgeConfig "COMPLETED"
      = { bg := "#f3f4f6", text := "#6b7280", label := "COMPLETED" } ∧
    (StatusBadgeMod.statusBadgeConfig "COMPLETED").bg
      ≠ (StatusBadgeMod.statusBadgeConfig "completed").bg := by
  exact ⟨by decide, rfl, rfl, by decide⟩

/-- C7 amended: both normalizers are total and deterministic and map unmapped
input to a default rather than erroring, and `getStatusConfig` is
case-insensitive (a case variant of a known status yields the same config as
its lowercase spelling, and anything outside the three synonym lists yields
the default config) — but the StatusBadge `statusConfig` lookup is
case-sensitive: any key missing from its table, including uppercase variants
of known statuses, gets the grey fallback badge labelled with the raw
input. -/
theorem status_normalization_amended
    (v k s t : String)
    (hk : k ∈ JobQueueMod.completedList ++ JobQueueMod.failedList
      ++ JobQueueMod.processingList)
    (hv : toLowerCase v = k)
    (h1 : JobQueueMod.completedList.contains (toLowerCase s) = false)
    (h2 : JobQueueMod.failedList.contains (toLowerCase s) = false)
    (h3 : JobQueueMod.processingList.contains (toLowerCase s) = false)
    (ht : StatusBadgeMod.statusConfigTable.lookup t = none) :
    JobQueueMod.getStatusConfig v = JobQueueMod.getStatusConfig k ∧
    JobQueueMod.getStatusConfig s = JobQueueMod.defaultConfig ∧
    StatusBadgeMod.statusBadgeConfig t
      = { bg := "#f3f4f6", text := "#6b7280", label := t } := by
  refine ⟨?_, ?_, ?_⟩
  · have hk' : toLowerCase k = k := by
      simp [JobQueueMod.completedList, JobQueueMod.failedList,
        JobQueueMod.processingList] at hk
      rcases hk with rfl | rfl | rfl | rfl | rfl | rfl | rfl | rfl | rfl
        | rfl | rfl <;> decide
    unfold JobQueueMod.getStatusConfig
    rw [hv, hk']
  · unfold JobQueueMod.getStatusConfig JobQueueMod.statusConfigCore
    rw [h1, h2, h3]
    rfl
  · unfold StatusBadgeMod.statusBadgeConfig
    rw [ht]

/-- C7 amended witness: "Done" is a case variant of the known "done";
"queued" matches none of the three synonym lists; "bogus" is missing from the
badge table. -/
theorem status_normalization_amended_witness :
    ("done" ∈ JobQueueMod.completedList ++ JobQueueMod.failedList
      ++ JobQueueMod.processingList ∧
     toLowerCase "Done" = "done" ∧
     JobQueueMod.completedList.contains (toLowerCase "queued") = false ∧
     JobQueueMod.failedList.contains (toLowerCase "queued") = false ∧
     JobQueueMod.processingList.contains (toLowerCase "queued") = false ∧
     StatusBadgeMod.statusConfigTable.lookup "bogus" = none) ∧
    (JobQueueMod.getStatusConfig "Done" = JobQueueMod.getStatusConfig "done" ∧
     JobQueueMod.getStatusConfig "queued" = JobQueueMod.defaultConfig ∧
     StatusBadgeMod.statusBadgeConfig "bogus"
       = { bg := "#f3f4f6", text := "#6b7280", label := "bogus" }) :=
  ⟨⟨by decide, by decide, by decide, by decide, by decide, by decide⟩,
   status_normalization_amended "Done" "done" "queued" "bogus"
     (by decide) (by decide) (by decide) (by decide) (by decide) (by decide)⟩

/-- C8: a push frame whose payload fails to parse as JSON raises no exception
(the handler is a total transition) and forwards the raw payload unchanged to
subscribers as the received message, all other hook state untouched. -/
theorem onmessage_fail_soft (cfg : UseWebSocket.WsConfig)
    (parse : String → Option Json) (s : UseWebSocket.WSState)
    (rawText : String) (h : parse rawText = none) :
    UseWebSocket.step cfg parse s (.messageEvt rawText)
      = { s with message := some (.raw rawText) } := by
  show ({ s with message := some (match parse rawText with
      | some j => .jsonMsg j
      | none => .raw rawText) } : UseWebSocket.WSState) = _
  rw [h]

/-- C8 witness on a concrete unparseable frame. -/
theorem onmessage_fail_soft_witness :
    ((fun _ => (none : Option Json)) "not json") = none ∧
    UseWebSocket.step ⟨true, 5⟩ (fun _ => none)
      UseWebSocket.WSState.init (.messageEvt "not json")
      = { UseWebSocket.WSState.init with message := some (.raw "not json") } :=
  ⟨rfl,
   onmessage_fail_soft ⟨true, 5⟩ (fun _ => none)
     UseWebSocket.WSState.init "not json" rfl⟩

/-- C9 counterexample: a DELETE hitting a 500 response with an unparseable
body stores `del`'s fixed fallback `{delete_failed, ERR_DELETE, "Delete
failed"}`, whose message does not carry the numeric HTTP status code — the
digits of 500 occur nowhere in it. -/
theorem del_fallback_lacks_status_code :
    (UseApi.del (.response ⟨false, 500, false, none⟩)
      ⟨none, none, false⟩).1 = false ∧
    (UseApi.del (.response ⟨false, 500, false, none⟩)
      ⟨none, none, false⟩).2.error
      = some (.apiError
          (mkApiError "delete_failed" "ERR_DELETE" "Delete failed")) ∧
    (mkApiError "delete_failed" "ERR_DELETE" "Delete failed").getField
      "message" = some (.str "Delete failed") ∧
    ¬ mentionsNum "Delete failed" 500 := by
  exact ⟨rfl, rfl, rfl, by decide⟩

/-- C9 amended: on any non-success response, fetch/post/put (via
`handleResponse`) surface the error body parsed from the response, or — when
that body cannot be parsed — the fallback `{unknown_error, ERR_UNKNOWN,
"HTTP <status>"}`, whose message carries the numeric status code; `del`
likewise surfaces a parsed error body but its fallback is the fixed
`{delete_failed, ERR_DELETE, "Delete failed"}` without the status code. -/
theorem error_surfacing_amended
    (st : UseApi.ApiState) (r : UseApi.Response) (h : r.ok = false) :
    (UseApi.fetchData (.response r) st).2.error
      = some (.apiError (r.jsonBody.getD
          (mkApiError "unknown_error" "ERR_UNKNOWN"
            ("HTTP " ++ toString r.status)))) ∧
    (UseApi.del (.response r) st).2.error
      = some (.apiError (r.jsonBody.getD
          (mkApiError "delete_failed" "ERR_DELETE" "Delete failed"))) ∧
    mentionsNum ("HTTP " ++ toString r.status) r.status := by
  refine ⟨?_, ?_, ?_⟩
  · simp [UseApi.fetchData, UseApi.handleResponse, h]
  · simp [UseApi.del, h]
  · exact ⟨"HTTP ".data, [], by simp⟩

/-- C9 amended witness at a concrete 404 with unparseable body. -/
theorem error_surfacing_amended_witness :
    ((⟨false, 404, false, none⟩ : UseApi.Response).ok = false) ∧
    ((UseApi.fetchData (.response ⟨false, 404, false, none⟩)
        ⟨none, none, false⟩).2.error
      = some (.apiError
          (mkApiError "unknown_error" "ERR_UNKNOWN" ("HTTP " ++ toString 404))) ∧
    (UseApi.del (.response ⟨false, 404, false, none⟩)
        ⟨none, none, false⟩).2.error
      = some (.apiError
          (mkApiError "delete_failed" "ERR_DELETE" "Delete failed")) ∧
    mentionsNum ("HTTP " ++ toString 404) 404) :=
  ⟨rfl,
   error_surfacing_amended ⟨none, none, false⟩ ⟨false, 404, false, none⟩ rfl⟩

/-- C10: every request is a total function of the settled network outcome
(the model has no failure exit, embedding "the promise never rejects"); on a
network failure or non-success response fetch resolves to null and del to
false with the failure stored in the error state; a successful response
whose content type is not JSON resolves to null with no error; and post/put
are the same executor as fetch. -/
theorem api_never_rejects
    (st : UseApi.ApiState) (rFail rOk : UseApi.Response)
    (h1 : rFail.ok = false) (h2 : rOk.ok = true)
    (h3 : rOk.contentTypeJson = false) :
    (UseApi.fetchData .networkFailure st).1 = none ∧
    (UseApi.fetchData .networkFailure st).2.error
      = some .networkTypeError ∧
    (UseApi.fetchData (.response rFail) st).1 = none ∧
    ((UseApi.fetchData (.response rFail) st).2.error).isSome = true ∧
    (UseApi.del .networkFailure st).1 = false ∧
    (UseApi.del .networkFailure st).2.error = some .networkTypeError ∧
    (UseApi.del (.response rFail) st).1 = false ∧
    ((UseApi.del (.response rFail) st).2.error).isSome = true ∧
    (UseApi.fetchData (.response rOk) st).1 = none ∧
    (UseApi.fetchData (.response rOk) st).2.error = none ∧
    (∀ b outcome, UseApi.post b outcome st = UseApi.fetchData outcome st) ∧
    (∀ b outcome, UseApi.put b outcome st = UseApi.fetchData outcome st) := by
  refine ⟨rfl, rfl, ?_, ?_, rfl, rfl, ?_, ?_, ?_, ?_,
    fun _ _ => rfl, fun _ _ => rfl⟩
  · simp [UseApi.fetchData, UseApi.handleResponse, h1]
  · simp [UseApi.fetchData, UseApi.handleResponse, h1]
  · simp [UseApi.del, h1]
  · simp [UseApi.del, h1]
  · simp [UseApi.fetchData, UseApi.handleResponse, h2, h3]
  · simp [UseApi.fetchData, UseApi.handleResponse, h2, h3]

/-- C10 witness at a concrete failing response and a concrete non-JSON
success. -/
theorem api_never_rejects_witness :
    ((⟨false, 500, false, none⟩ : UseApi.Response).ok = false ∧
     (⟨true, 200, false, none⟩ : UseApi.Response).ok = true ∧
     (⟨true, 200, false, none⟩ : UseApi.Response).contentTypeJson = false) ∧
    ((UseApi.fetchData .networkFailure ⟨none, none, false⟩).1 = none ∧
    (UseApi.fetchData .networkFailure ⟨none, none, false⟩).2.error
      = some .networkTypeError ∧
    (UseApi.fetchData (.response ⟨false, 500, false, none⟩)
      ⟨none, none, false⟩).1 = none ∧
    ((UseApi.fetchData (.response ⟨false, 500, false, none⟩)
      ⟨none, none, false⟩).2.error).isSome = true ∧
    (UseApi.del .networkFailure ⟨none, none, false⟩).1 = false ∧
    (UseApi.del .networkFailure ⟨none, none, false⟩).2.error
      = some .networkTypeError ∧
    (UseApi.del (.response ⟨false, 500, false, none⟩)
      ⟨none, none, false⟩).1 = false ∧
    ((UseApi.del (.response ⟨false, 500, false, none⟩)
      ⟨none, none, false⟩).2.error).isSome = true ∧
    (UseApi.fetchData (.response ⟨true, 200, false, none⟩)
      ⟨none, none, false⟩).1 = none ∧
    (UseApi.fetchData (.response ⟨true, 200, false, none⟩)
      ⟨none, none, false⟩).2.error = none ∧
    (∀ b outcome, UseApi.post b outcome ⟨none, none, false⟩
      = UseApi.fetchData outcome ⟨none, none, false⟩) ∧
    (∀ b outcome, UseApi.put b outcome ⟨none, none, false⟩
      = UseApi.fetchData outcome ⟨none, none, false⟩)) :=
  ⟨⟨rfl, rfl, rfl⟩,
   api_never_rejects ⟨none, none, false⟩ ⟨false, 500, false, none⟩
     ⟨true, 200, false, none⟩ rfl rfl rfl⟩
